import Mathlib

/-!
Verification of the AI-reviewer repository: a browser code editor (App.jsx),
an Express app exposing `GET /` and mounting the review route (app.js), and a
Gemini model adapter (ai.service.js). External effects (the HTTP transport and
the generative-model API) are modelled as oracles of type
`String → Except String String`; invocations of external collaborators are
recorded in explicit trace structures.
-/

/-- The `systemInstruction` constant passed to `genAI.getGenerativeModel` in
ai.service.js: the fixed Prompt Template describing the desired review format.
Transcribed verbatim from the source (JavaScript template-literal escapes
resolved). -/
def systemInstruction : String :=
  "\n    You are an expert code reviewer. Analyze code and provide detailed feedback in this format:\n\n    📝 SIMPLE CODE PATTERNS\n    ====================\n    Basic patterns for common tasks:\n\n    1️⃣ Array Operations:\n    ```javascript\n    // Filter array\n    const filtered = array.filter(item => condition);\n\n    // Map values\n    const mapped = array.map(item => transform(item));\n\n    // Find item\n    const found = array.find(item => condition);\n\n    // Check existence\n    const exists = array.some(item => condition);\n    ```\n\n    2️⃣ Object Operations:\n    ```javascript\n    // Create object\n    const obj = \x7b key: value \x7d;\n\n    // Clone object\n    const clone = \x7b ...obj \x7d;\n\n    // Merge objects\n    const merged = \x7b ...obj1, ...obj2 \x7d;\n\n    // Get keys/values\n    const keys = Object.keys(obj);\n    const values = Object.values(obj);\n    ```\n\n    3️⃣ String Operations:\n    ```javascript\n    // Split string\n    const parts = str.split(separator);\n\n    // Join array\n    const joined = array.join(separator);\n\n    // Replace text\n    const replaced = str.replace(search, replacement);\n\n    // Template literal\n    const template = `Value: $\x7bvalue\x7d`;\n    ```\n\n    4️⃣ Basic Functions:\n    ```javascript\n    // Arrow function\n    const add = (a, b) => a + b;\n\n    // Regular function\n    function multiply(a, b) \x7b\n        return a * b;\n    \x7d\n\n    // Async function\n    async function fetchData() \x7b\n        try \x7b\n            return await getData();\n        \x7d catch (error) \x7b\n            console.error(error);\n        \x7d\n    \x7d\n    ```\n\n    5️⃣ Control Flow:\n    ```javascript\n    // If-else\n    if (condition) \x7b\n        doSomething();\n    \x7d else \x7b\n        doOther();\n    \x7d\n\n    // Ternary\n    const result = condition ? valueA : valueB;\n\n    // Switch\n    switch (value) \x7b\n        case 'A': return resultA;\n        case 'B': return resultB;\n        default: return defaultResult;\n    \x7d\n    ```\n\n    6️⃣ Error Handling:\n    ```javascript\n    // Basic try-catch\n    try \x7b\n        doRiskyOperation();\n    \x7d catch (error) \x7b\n        handleError(error);\n    \x7d\n\n    // With finally\n    try \x7b\n        connectToDatabase();\n    \x7d catch (error) \x7b\n        logError(error);\n    \x7d finally \x7b\n        cleanup();\n    \x7d\n    ```\n\n    7️⃣ Promises:\n    ```javascript\n    // Promise chain\n    getData()\n        .then(process)\n        .catch(handleError);\n\n    // Async/await\n    const data = await getData();\n\n    // Promise.all\n    const results = await Promise.all([\n        task1(),\n        task2()\n    ]);\n    ```\n\n    📝 CURRENT CODE ANALYSIS\n    =====================\n    Show the code with issue markers:\n    ```javascript\n    // 🚫 Missing error handling\n    // ⚠️ No input validation\n    function processUserData(data) \x7b\n        const result = data.map(item => item.value);\n        return result;\n    \x7d\n    ```\n\n    🔍 ISSUES DETECTED\n    ================\n    List all problems:\n    ❌ No input validation\n       → Could crash with null/undefined\n    ❌ Missing error handling\n       → Silent failures\n    ❌ No type checking\n       → Potential runtime errors\n\n    🎯 CORRECT CODE PATTERNS\n    =====================\n    Show proper implementation patterns:\n\n    1️⃣ Input Validation Pattern:\n    ```javascript\n    function validateInput(data) \x7b\n        if (!Array.isArray(data)) \x7b\n            throw new TypeError('Input must be an array');\n        \x7d\n        if (data.length === 0) \x7b\n            throw new Error('Input array cannot be empty');\n        \x7d\n        return true;\n    \x7d\n    ```\n\n    2️⃣ Error Handling Pattern:\n    ```javascript\n    try \x7b\n        // Main logic\n    \x7d catch (error) \x7b\n        // Log error\n        console.error('Operation failed:', error);\n        // Rethrow or handle\n        throw new Error('Operation failed: ' + error.message);\n    \x7d\n    ```\n\n    3️⃣ Type Checking Pattern:\n    ```javascript\n    function checkTypes(item) \x7b\n        if (typeof item !== 'object' || item === null) \x7b\n            throw new TypeError('Invalid item type');\n        \x7d\n        if (!Object.hasOwn(item, 'value')) \x7b\n            throw new Error('Item missing required property');\n        \x7d\n    \x7d\n    ```\n\n    ✨ IMPROVED COMPLETE CODE\n    ======================\n    ```javascript\n    /**\n     * Process user data with comprehensive error handling\n     * @param \x7bArray\x7d data - Array of user data objects\n     * @returns \x7bArray\x7d Processed values\n     * @throws \x7bError\x7d If validation fails\n     */\n    function processUserData(data) \x7b\n        // 🔐 Input validation\n        validateInput(data);\n\n        try \x7b\n            // 🔍 Process with type checking\n            return data.map(item => \x7b\n                checkTypes(item);\n                return item.value;\n            \x7d);\n        \x7d catch (error) \x7b\n            // 🚨 Error handling\n            console.error('Data processing failed:', error);\n            throw new Error('Failed to process user data: ' + error.message);\n        \x7d\n    \x7d\n\n    // 📋 Usage example\n    try \x7b\n        const userData = [\n            \x7b value: 'John' \x7d,\n            \x7b value: 'Jane' \x7d\n        ];\n        const result = processUserData(userData);\n        console.log('Success:', result);\n    \x7d catch (error) \x7b\n        console.error('Error:', error.message);\n    \x7d\n    ```\n\n    📈 ADVANTAGES\n    ===========\n    ✅ Complete input validation\n    ✅ Comprehensive error handling\n    ✅ Type safety checks\n    ✅ Clear documentation\n    ✅ Usage examples included\n\n    ⚖️ TRADE-OFFS\n    ===========\n    ⚠️ More verbose code\n    ⚠️ Additional processing overhead\n    ⚠️ More complex error handling\n    ⚠️ Requires more testing\n\n    🔧 IMPLEMENTATION GUIDE\n    ====================\n    1. 📌 Add Validation First\n       • Implement input checks\n       • Add type validation\n       • Handle edge cases\n\n    2. 🛠️ Core Logic\n       • Process data safely\n       • Use proper methods\n       • Maintain immutability\n\n    3. 🚨 Error Handling\n       • Catch specific errors\n       • Log appropriately\n       • Return clear messages\n\n    🧪 TESTING SCENARIOS\n    =================\n    ✓ Valid input cases:\n      • Normal array input\n      • Different data types\n      • Edge case values\n\n    ✓ Error cases:\n      • Null/undefined input\n      • Invalid array items\n      • Missing properties\n\n    💡 BEST PRACTICES\n    ==============\n    1. 🔒 Always validate inputs\n    2. 🛡️ Use try-catch blocks\n    3. 📝 Document functions\n    4. ✨ Include examples\n    5. 🧪 Write test cases\n\n    Remember:\n    • 🎯 Follow the patterns shown\n    • 📝 Include documentation\n    • ⚡ Consider performance\n    • 🔄 Handle all edge cases\n    • 📚 Provide usage examples\n    "

/-- Trace of one call to `generateContent` in ai.service.js: the prompts sent to
the underlying model API (`model.generateContent`), the console-error log
entries, and the returned or rethrown outcome. -/
structure GenTrace where
  apiCalls : List String
  log : List String
  result : Except String String

/-- ai.service.js `generateContent(prompt)`: one call to `model.generateContent`
with the given prompt; on success returns the response text, on failure logs the
error and rethrows it. The external API is the oracle `api`. -/
def generateContent (api : String → Except String String) (prompt : String) : GenTrace :=
  match api prompt with
  | Except.ok text =>
      { apiCalls := [prompt], log := [], result := Except.ok text }
  | Except.error e =>
      { apiCalls := [prompt], log := ["Error generating content: " ++ e],
        result := Except.error e }

/-- Trace of one ReviewCode operation of the Review Service: the prompts passed
to the Generative Model Client (`generateContent`) and the response body. -/
structure ServiceTrace where
  clientCalls : List String
  result : Except String String

/-- Modelled from the spec: the review controller (routes/ai.route.js and its
controller, mounted by app.js at `/api/ai`, are not under src/). Per the spec,
the Review Service "concatenates or wraps the incoming `code` value into this
template before forwarding to the model client". -/
def wrapPrompt (template code : String) : String :=
  template ++ code

/-- Modelled from the spec: ReviewCode(code) wraps `code` with the Prompt
Template, invokes the Generative Model Client exactly once with the resulting
prompt, and returns the generated text verbatim. -/
def reviewCodeService (api : String → Except String String)
    (template code : String) : ServiceTrace :=
  { clientCalls := [wrapPrompt template code],
    result := (generateContent api (wrapPrompt template code)).result }

/-- The two kinds of HTTP requests the Express app (app.js) serves: `GET /` and
`POST /api/ai/get-review` with a `code` field. -/
inductive Request where
  | root : Request
  | review (code : String) : Request

/-- Process-wide server state: the only process-wide value the claims concern is
the Prompt Template constant. -/
structure ServerState where
  template : String

/-- The state of the server process at startup: the template is the
`systemInstruction` constant of ai.service.js. -/
def initServerState : ServerState :=
  { template := systemInstruction }

/-- One request handled by the Express app: `GET /` answers the static string
"hello" (app.js); `POST /api/ai/get-review` runs the ReviewCode operation. No
handler writes to the process-wide state. -/
def handleRequest (api : String → Except String String) (st : ServerState) :
    Request → ServerState × Except String String
  | Request.root => (st, Except.ok "hello")
  | Request.review code => (st, (reviewCodeService api st.template code).result)

/-- Sequential processing of a list of requests by the server, threading the
process-wide state and collecting the responses. -/
def processRequests (api : String → Except String String) (st : ServerState) :
    List Request → ServerState × List (Except String String)
  | [] => (st, [])
  | r :: rs =>
      let step := handleRequest api st r
      let rest := processRequests api step.1 rs
      (rest.1, step.2 :: rest.2)

/-- The Editor Client state in App.jsx: the editor buffer (`code` useState), the
displayed review markdown (`review` useState), and the console-error log. -/
structure ClientState where
  code : String
  review : String
  errorLog : List String

/-- The initial React state of App.jsx: `code` is the placeholder snippet,
`review` is the empty string, nothing logged yet. -/
def initialClientState : ClientState :=
  { code := "function sum()\x7b\n    return 1+1\x7d", review := "", errorLog := [] }

/-- Trace of one `reviewCode` invocation in App.jsx: the `code` payloads posted
to the service and the client state after the handler returns. -/
structure ClientTrace where
  requests : List String
  state : ClientState

/-- What the right-hand pane renders: the `review` state, passed to the
Markdown component in App.jsx. -/
def renderedReview (s : ClientState) : String :=
  s.review

/-- App.jsx `reviewCode()`: posts the current buffer as the `code` field; on
success stores the response body with `setReview`; on failure the catch block
logs the error and changes nothing else. The outer `Except` is the function's
own outcome as an async function: `Except.error` would mean an exception
escaped `reviewCode` itself. The HTTP transport is the oracle `post`. -/
def reviewCode (post : String → Except String String) (s : ClientState) :
    Except String ClientTrace :=
  match post s.code with
  | Except.ok data =>
      Except.ok { requests := [s.code], state := { s with review := data } }
  | Except.error e =>
      Except.ok { requests := [s.code],
                  state := { s with errorLog := s.errorLog ++ ["Error reviewing code: " ++ e] } }

/-- A model-API oracle whose call always succeeds with a fixed review text. -/
def apiStubOk : String → Except String String :=
  fun _ => Except.ok "LGTM"

/-- An HTTP-transport oracle whose call always fails. -/
def postStubFail : String → Except String String :=
  fun _ => Except.error "network down"

/-- An HTTP-transport oracle whose call always succeeds with a fixed body. -/
def postStubOk : String → Except String String :=
  fun _ => Except.ok "## Review"

theorem handleRequest_preserves_state (api : String → Except String String)
    (st : ServerState) (r : Request) : (handleRequest api st r).1 = st := by
  cases r <;> rfl

theorem processRequests_preserves_state (api : String → Except String String)
    (st : ServerState) (reqs : List Request) :
    (processRequests api st reqs).1 = st := by
  induction reqs generalizing st with
  | nil => rfl
  | cons r rs ih =>
      show (processRequests api (handleRequest api st r).1 rs).1 = st
      rw [handleRequest_preserves_state, ih]

/-- C1: for every request whose `code` field is a non-empty string, the Review
Service invokes the Generative Model Client exactly once, and the prompt passed
to that single invocation contains the submitted code value as a substring. -/
theorem reviewService_single_invocation_contains_code
    (api : String → Except String String) (code : String) (_h : code ≠ "") :
    (reviewCodeService api systemInstruction code).clientCalls.length = 1 ∧
    ∀ p ∈ (reviewCodeService api systemInstruction code).clientCalls,
      code.data <:+: p.data := by
  refine ⟨rfl, ?_⟩
  intro p hp
  have hp' : p = wrapPrompt systemInstruction code := by
    simpa [reviewCodeService] using hp
  rw [hp', wrapPrompt, String.data_append]
  exact (List.suffix_append systemInstruction.data code.data).isInfix

/-- Witness for C1 at the concrete non-empty code "x" and an always-succeeding
model API. -/
theorem reviewService_single_invocation_contains_code_witness :
    (reviewCodeService apiStubOk systemInstruction "x").clientCalls.length = 1 ∧
    ∀ p ∈ (reviewCodeService apiStubOk systemInstruction "x").clientCalls,
      ("x" : String).data <:+: p.data :=
  reviewService_single_invocation_contains_code apiStubOk "x" (by decide)

/-- C2: whenever the underlying API call succeeds on the built prompt, the
ReviewCode operation returns exactly the text produced by the model, with no
post-processing, truncation, or sanitization. -/
theorem reviewService_returns_model_text_verbatim
    (api : String → Except String String) (code t : String)
    (h : api (wrapPrompt systemInstruction code) = Except.ok t) :
    (reviewCodeService api systemInstruction code).result = Except.ok t := by
  simp [reviewCodeService, generateContent, h]

/-- Witness for C2: with a model API that answers "LGTM", ReviewCode returns
exactly "LGTM". -/
theorem reviewService_returns_model_text_verbatim_witness :
    (reviewCodeService apiStubOk systemInstruction "x").result = Except.ok "LGTM" :=
  reviewService_returns_model_text_verbatim apiStubOk "x" "LGTM" rfl

/-- C3: for every prompt, `generateContent` makes exactly one attempt at the
underlying API call, and its outcome is exactly the outcome of that call:
the generated text on success, the propagated error on failure. -/
theorem generateContent_single_attempt_propagates
    (api : String → Except String String) (prompt : String) :
    (generateContent api prompt).apiCalls = [prompt] ∧
    (generateContent api prompt).apiCalls.length = 1 ∧
    (generateContent api prompt).result = api prompt := by
  unfold generateContent
  cases api prompt <;> exact ⟨rfl, rfl, rfl⟩

/-- C4: on every failure of the HTTP call, the client's `reviewCode` logs the
error and leaves the displayed state (review text and code buffer) exactly as
it was; the handler itself completes normally. -/
theorem reviewCode_failure_leaves_display_unchanged
    (post : String → Except String String) (s : ClientState) (e : String)
    (h : post s.code = Except.error e) :
    ∃ t, reviewCode post s = Except.ok t ∧
      t.state.review = s.review ∧
      t.state.code = s.code ∧
      t.state.errorLog = s.errorLog ++ ["Error reviewing code: " ++ e] := by
  refine ⟨{ requests := [s.code],
            state := { s with errorLog := s.errorLog ++ ["Error reviewing code: " ++ e] } },
          ?_, rfl, rfl, rfl⟩
  unfold reviewCode
  rw [h]

/-- Witness for C4: a failing transport on the initial client state leaves the
displayed review at its previous value and appends one log entry. -/
theorem reviewCode_failure_leaves_display_unchanged_witness :
    ∃ t, reviewCode postStubFail initialClientState = Except.ok t ∧
      t.state.review = initialClientState.review ∧
      t.state.code = initialClientState.code ∧
      t.state.errorLog
        = initialClientState.errorLog ++ ["Error reviewing code: " ++ "network down"] :=
  reviewCode_failure_leaves_display_unchanged postStubFail initialClientState
    "network down" rfl

/-- C5: on every successful response, the client replaces the displayed review
state with the response body, so the rendered markdown equals that body. -/
theorem reviewCode_success_replaces_review
    (post : String → Except String String) (s : ClientState) (d : String)
    (h : post s.code = Except.ok d) :
    ∃ t, reviewCode post s = Except.ok t ∧
      t.state.review = d ∧
      renderedReview t.state = d := by
  refine ⟨{ requests := [s.code], state := { s with review := d } }, ?_, rfl, rfl⟩
  unfold reviewCode
  rw [h]

/-- Witness for C5: a transport answering "## Review" makes the rendered
markdown equal to "## Review". -/
theorem reviewCode_success_replaces_review_witness :
    ∃ t, reviewCode postStubOk initialClientState = Except.ok t ∧
      t.state.review = "## Review" ∧
      renderedReview t.state = "## Review" :=
  reviewCode_success_replaces_review postStubOk initialClientState "## Review" rfl

/-- C6: for every value of the editor buffer, including the empty string, the
client sends exactly that value as the `code` field of the request, with no
validation or transformation. -/
theorem reviewCode_sends_buffer_unmodified
    (post : String → Except String String) (s : ClientState) :
    ∃ t, reviewCode post s = Except.ok t ∧ t.requests = [s.code] := by
  unfold reviewCode
  cases post s.code <;> exact ⟨_, rfl, rfl⟩

/-- C7: the Prompt Template is process-wide and immutable: processing any
sequence of requests leaves it unchanged from its startup value, and every
invocation of the Generative Model Client from any reachable state uses that
same `systemInstruction` value in its prompt. -/
theorem promptTemplate_immutable
    (api : String → Except String String) (reqs : List Request) (code : String) :
    (processRequests api initServerState reqs).1.template = systemInstruction ∧
    (reviewCodeService api (processRequests api initServerState reqs).1.template
      code).clientCalls = [wrapPrompt systemInstruction code] := by
  rw [processRequests_preserves_state]
  exact ⟨rfl, rfl⟩

/-- C8: `GET /` returns the same fixed greeting "hello" after any sequence of
prior requests, independent of server state. -/
theorem rootEndpoint_static_greeting
    (api : String → Except String String) (reqs : List Request) :
    (handleRequest api (processRequests api initServerState reqs).1
      Request.root).2 = Except.ok "hello" := by
  rw [processRequests_preserves_state]
  rfl

/-- C9: the client's `reviewCode` never lets an error escape: for every outcome
of the HTTP call it completes normally. -/
theorem reviewCode_never_throws
    (post : String → Except String String) (s : ClientState) :
    ∃ t, reviewCode post s = Except.ok t := by
  unfold reviewCode
  cases post s.code <;> exact ⟨_, rfl⟩

/-- C10: the client initializes the review display state to the empty string,
so the rendered review area shows the empty string before any response. -/
theorem review_state_initialized_empty :
    initialClientState.review = "" ∧ renderedReview initialClientState = "" :=
  ⟨rfl, rfl⟩
